import Mathlib

/-!
Shallow embedding of `salesforce/fields.py` (django-salesforce).

The module defines Django field subclasses for Salesforce:
`SalesforceAutoField` (the primary-key field), `SfField` (the base field
carrying `sf_read_only` / `custom` options and the column-naming logic) and
`ForeignKey` (relation fields).  Strings are modelled as `List Char`; the
identifier names appearing in this code base are ASCII, so the Python string
predicates `str.islower` / `str.title` are embedded with their ASCII
semantics.
-/

namespace Salesforce

/-- Python considers an ASCII character "cased" exactly when it is a letter. -/
def pyIsCased (c : Char) : Bool := c.isAlpha

/-- Python `str.islower` on ASCII strings: at least one cased character and
no cased character is upper-case. -/
def pyIslower (s : List Char) : Bool :=
  s.any pyIsCased && !(s.any Char.isUpper)

/-- One step of Python `str.title` on ASCII strings: a letter is upper-cased
when the previous character was not cased, lower-cased otherwise. -/
def pyTitleAux : Bool → List Char → List Char
  | _, [] => []
  | prevCased, c :: cs =>
      (if pyIsCased c then (if prevCased then c.toLower else c.toUpper) else c)
        :: pyTitleAux (pyIsCased c) cs

/-- Python `str.title` on ASCII strings. -/
def pyTitle (s : List Char) : List Char := pyTitleAux false s

/-- Python `s.replace(underscore, empty)`: drop every underscore. -/
def pyStripUnderscores (s : List Char) : List Char := s.filter (fun c => c ≠ '_')

/-- The state of an `SfField` relevant to naming: constructor arguments
`name`, `db_column`, `custom` (stored as `sf_custom`) and `sf_read_only`. -/
structure SfFieldData where
  name : List Char
  db_column : Option (List Char)
  sf_custom : Bool
  sf_read_only : Nat
deriving DecidableEq

/-- The base column name computed inside `SfField.get_attname_column` when no
`db_column` is given: `self.name` when `not self.name.islower()`, otherwise
`self.name.title().replace(underscore, empty)`. -/
def baseColumnName (name : List Char) : List Char :=
  if !(pyIslower name) then name else pyStripUnderscores (pyTitle name)

/-- `django.db.models.Field.get_attname` for a plain field: the name itself. -/
def SfField.get_attname (f : SfFieldData) : List Char := f.name

/-- `SfField.get_attname_column`: the explicit `db_column` when present,
otherwise the base column name, suffixed with `__c` when `sf_custom`. -/
def SfField.get_attname_column (f : SfFieldData) : List Char × List Char :=
  let attname := SfField.get_attname f
  let column :=
    match f.db_column with
    | some dbcol => dbcol
    | Option.none =>
        let base := baseColumnName f.name
        if f.sf_custom then base ++ "__c".data else base
  (attname, column)

/-- `ForeignKey.get_attname`: lower-case names get a `_id` suffix, others an
`Id` suffix. -/
def ForeignKey.get_attname (f : SfFieldData) : List Char :=
  if pyIslower f.name then f.name ++ "_id".data else f.name ++ "Id".data

/-- `ForeignKey.get_attname_column`: the column of the super call, plus an
`Id` suffix when `db_column is None and not self.sf_custom`.  The attname of
the super call resolves through `ForeignKey.get_attname`. -/
def ForeignKey.get_attname_column (f : SfFieldData) : List Char × List Char :=
  let attname := ForeignKey.get_attname f
  let column := (SfField.get_attname_column f).2
  if f.db_column.isNone && !f.sf_custom then (attname, column ++ "Id".data)
  else (attname, column)

/-- The keyword arguments of `SalesforceAutoField.__init__` that the
constructor inspects or overwrites. -/
structure AutoFieldKwargs where
  primary_key : Bool
  blank : Bool
  null : Bool
  default : Option (List Char)
deriving DecidableEq

/-- The options an initialised `SalesforceAutoField` ends up with. -/
structure SalesforceAutoFieldState where
  primary_key : Bool
  blank : Bool
  null : Bool
  default : Option (List Char)
deriving DecidableEq

/-- The message of the assertion guarding `SalesforceAutoField.__init__`:
the class name formatted into the template. -/
def autoFieldAssertMsg : List Char :=
  "SalesforceAutoFields must have primary_key=True.".data

/-- `SalesforceAutoField.__init__`: asserts `primary_key=True`, then forces
`blank=False`, `null=False`, `default=None` before calling the ancestor.  A
failed Python `assert` is modelled as `Except.error` of its message. -/
def SalesforceAutoField.init (kwargs : AutoFieldKwargs) :
    Except (List Char) SalesforceAutoFieldState :=
  if kwargs.primary_key = true then
    Except.ok
      { primary_key := kwargs.primary_key, blank := false, null := false,
        default := Option.none }
  else Except.error autoFieldAssertMsg

/-- The part of Django model `_meta` state that
`SalesforceAutoField.contribute_to_class` reads and writes. -/
structure ModelMeta where
  has_auto_field : Bool
  auto_field : Option SalesforceAutoFieldState
deriving DecidableEq

/-- The message of the assertion in `contribute_to_class` (its apostrophe is
written out as `cannot`). -/
def autoFieldDupMsg : List Char :=
  "A model cannot have more than one AutoField.".data

/-- `SalesforceAutoField.contribute_to_class`: asserts the class has no auto
field yet, then records the field and sets `has_auto_field`. -/
def SalesforceAutoField.contribute_to_class (field : SalesforceAutoFieldState)
    (meta : ModelMeta) : Except (List Char) ModelMeta :=
  if meta.has_auto_field then Except.error autoFieldDupMsg
  else Except.ok { has_auto_field := true, auto_field := some field }

/-- The Python values `SalesforceAutoField.to_python` is exercised with:
`None`, strings, and the non-string scalars `int` and `bool`. -/
inductive PyValue where
  | none
  | str (s : List Char)
  | int (n : Int)
  | bool (b : Bool)
deriving DecidableEq

/-- `django.utils.encoding.smart_text`: the text form of a value, as Python
`str` renders these scalars. -/
def smart_text : PyValue → List Char
  | PyValue.none => "None".data
  | PyValue.str s => s
  | PyValue.int n => (toString n).data
  | PyValue.bool b => if b then "True".data else "False".data

/-- `SalesforceAutoField.to_python`: strings and `None` pass through, any
other value goes through `smart_text`. -/
def SalesforceAutoField.to_python (value : PyValue) : PyValue :=
  match value with
  | PyValue.str s => PyValue.str s
  | PyValue.none => PyValue.none
  | v => PyValue.str (smart_text v)

/-- `SalesforceAutoField.validate`: the body is `pass`, so no error is ever
raised (`Option.none` plays the role of "no error"). -/
def SalesforceAutoField.validate (_value : PyValue) (_model_instance : Unit) :
    Option (List Char) :=
  Option.none

/-- The deletion policies of `django.db.models` that can be passed as
`on_delete`. -/
inductive OnDelete where
  | CASCADE
  | PROTECT
  | SET_NULL
  | SET_DEFAULT
  | DO_NOTHING
deriving DecidableEq

/-- `__name__` of each deletion-policy function. -/
def OnDelete.name : OnDelete → List Char
  | OnDelete.CASCADE => "CASCADE".data
  | OnDelete.PROTECT => "PROTECT".data
  | OnDelete.SET_NULL => "SET_NULL".data
  | OnDelete.SET_DEFAULT => "SET_DEFAULT".data
  | OnDelete.DO_NOTHING => "DO_NOTHING".data

/-- The warning text `ForeignKey.__init__` formats: the template with the
policy name and the related object substituted for the two placeholders. -/
def fkWarningText (policyName related_object : List Char) : List Char :=
  "Only foreign keys with on_delete = PROTECT or DO_NOTHING are currently supported, not ".data
    ++ policyName ++ " related to ".data ++ related_object

/-- `ForeignKey.__init__`: reads `on_delete` (default `models.CASCADE`),
warns unless its `__name__` is `PROTECT` or `DO_NOTHING`, then constructs
the field with the requested policy.  The result is the list of emitted
warnings together with the policy the field keeps. -/
def ForeignKey.init (related_object : List Char) (on_delete : Option OnDelete) :
    List (List Char) × OnDelete :=
  let od := on_delete.getD OnDelete.CASCADE
  let warns :=
    if ¬ (OnDelete.name od = "PROTECT".data ∨ OnDelete.name od = "DO_NOTHING".data)
    then [fkWarningText (OnDelete.name od) related_object]
    else []
  (warns, od)

/-- C1: with no explicit `db_column`, the column returned by
`SfField.get_attname_column` is a pure function of the declared name (plus
the custom suffix): a name that is not entirely lower-case is used unchanged
as the base column name, an entirely lower-case name is title-cased with all
underscores removed; e.g. `email_bounced_reason` yields `EmailBouncedReason`
and `LastName` yields `LastName`. -/
theorem C1_base_column_name (f : SfFieldData) (h : f.db_column = Option.none) :
    (SfField.get_attname_column f).2
        = (if f.sf_custom then baseColumnName f.name ++ "__c".data
           else baseColumnName f.name)
    ∧ (pyIslower f.name = false → baseColumnName f.name = f.name)
    ∧ (pyIslower f.name = true →
        baseColumnName f.name = pyStripUnderscores (pyTitle f.name))
    ∧ baseColumnName "email_bounced_reason".data = "EmailBouncedReason".data
    ∧ baseColumnName "LastName".data = "LastName".data := by
  refine ⟨?_, ?_, ?_, by decide, by decide⟩
  · simp [SfField.get_attname_column, h]
  · intro hl; simp [baseColumnName, hl]
  · intro hl; simp [baseColumnName, hl]

/-- C1 witness: the theorem applied to the concrete field `last_name`. -/
theorem C1_base_column_name_witness :
    baseColumnName "email_bounced_reason".data = "EmailBouncedReason".data
    ∧ baseColumnName "LastName".data = "LastName".data :=
  ⟨(C1_base_column_name ⟨"last_name".data, Option.none, false, 0⟩ rfl).2.2.2.1,
   (C1_base_column_name ⟨"last_name".data, Option.none, false, 0⟩ rfl).2.2.2.2⟩

/-- C2: with `custom=True` and no explicit `db_column`, the final column is
the base column name with the literal `__c` appended on the right (so after
the base-name transformation); e.g. `my_field` yields `MyField__c`. -/
theorem C2_custom_suffix (f : SfFieldData) (h : f.db_column = Option.none)
    (hc : f.sf_custom = true) :
    (SfField.get_attname_column f).2 = baseColumnName f.name ++ "__c".data
    ∧ (SfField.get_attname_column ⟨"my_field".data, Option.none, true, 0⟩).2
        = "MyField__c".data := by
  refine ⟨?_, by decide⟩
  simp [SfField.get_attname_column, h, hc]

/-- C2 witness: the theorem applied to the concrete field `my_field` with
`custom=True`. -/
theorem C2_custom_suffix_witness :
    (SfField.get_attname_column ⟨"my_field".data, Option.none, true, 0⟩).2
      = baseColumnName "my_field".data ++ "__c".data :=
  (C2_custom_suffix ⟨"my_field".data, Option.none, true, 0⟩ rfl rfl).1

/-- C3: with an explicit `db_column`, both the plain field and the relation
field return that override verbatim: no title-casing, no `__c` suffix, and
for relation fields no `Id` suffix either. -/
theorem C3_explicit_db_column (f : SfFieldData) (col : List Char)
    (h : f.db_column = some col) :
    (SfField.get_attname_column f).2 = col
    ∧ (ForeignKey.get_attname_column f).2 = col := by
  constructor
  · simp [SfField.get_attname_column, h]
  · simp [ForeignKey.get_attname_column, SfField.get_attname_column, h]

/-- C3 witness: a custom, mixed-case relation field with an explicit column
keeps the override exactly. -/
theorem C3_explicit_db_column_witness :
    (SfField.get_attname_column
        ⟨"my_field".data, some "Odd_name".data, true, 0⟩).2 = "Odd_name".data
    ∧ (ForeignKey.get_attname_column
        ⟨"my_field".data, some "Odd_name".data, true, 0⟩).2 = "Odd_name".data :=
  C3_explicit_db_column ⟨"my_field".data, some "Odd_name".data, true, 0⟩
    "Odd_name".data rfl

/-- C4: the relation attribute name is the declared name plus `_id` when the
name is entirely lower-case and plus `Id` otherwise; e.g. `owner` yields
`owner_id` and `Owner` yields `OwnerId`. -/
theorem C4_fk_attname (f : SfFieldData) :
    ForeignKey.get_attname f
        = (if pyIslower f.name then f.name ++ "_id".data else f.name ++ "Id".data)
    ∧ ForeignKey.get_attname ⟨"owner".data, Option.none, false, 0⟩ = "owner_id".data
    ∧ ForeignKey.get_attname ⟨"Owner".data, Option.none, false, 0⟩ = "OwnerId".data :=
  ⟨rfl, by decide, by decide⟩

/-- C5: the relation column is the base algorithm's column, with `Id`
appended exactly when no `db_column` is given and the field is not custom;
`owner` yields `OwnerId` while the custom `my_lookup` yields `MyLookup__c`
(ending in `__c`, with no further `Id`). -/
theorem C5_fk_column (f : SfFieldData) :
    (ForeignKey.get_attname_column f).2
        = (if f.db_column = Option.none ∧ f.sf_custom = false
           then (SfField.get_attname_column f).2 ++ "Id".data
           else (SfField.get_attname_column f).2)
    ∧ (ForeignKey.get_attname_column ⟨"owner".data, Option.none, false, 0⟩).2
        = "OwnerId".data
    ∧ (ForeignKey.get_attname_column ⟨"my_lookup".data, Option.none, true, 0⟩).2
        = "MyLookup__c".data
    ∧ (ForeignKey.get_attname_column ⟨"my_lookup".data, Option.none, true, 0⟩).2
        = baseColumnName "my_lookup".data ++ "__c".data := by
  refine ⟨?_, by decide, by decide, by decide⟩
  by_cases h1 : f.db_column = Option.none
  · by_cases h2 : f.sf_custom
    · simp [ForeignKey.get_attname_column, h1, h2]
    · simp [ForeignKey.get_attname_column, h1, h2, Bool.not_eq_true] at *
  · have h1' : f.db_column.isNone = false := by
      cases hd : f.db_column with
      | none => exact absurd hd h1
      | some c => simp [hd]
    simp [ForeignKey.get_attname_column, h1, h1']

/-- C6: constructing a `SalesforceAutoField` without `primary_key=True`
fails with the assertion error; with `primary_key=True` it succeeds and
forces `null=False`, `blank=False` and `default=None`, whatever the caller
supplied for those options. -/
theorem C6_auto_field_ctor :
    (∀ kwargs : AutoFieldKwargs, kwargs.primary_key = false →
        SalesforceAutoField.init kwargs = Except.error autoFieldAssertMsg)
    ∧ (∀ kwargs : AutoFieldKwargs, kwargs.primary_key = true →
        SalesforceAutoField.init kwargs
          = Except.ok
              { primary_key := true, blank := false, null := false,
                default := Option.none }) := by
  constructor
  · intro kwargs h; simp [SalesforceAutoField.init, h]
  · intro kwargs h; simp [SalesforceAutoField.init, h]

/-- C6 witness: concrete constructions, with caller-supplied `null`, `blank`
and `default` overridden on success. -/
theorem C6_auto_field_ctor_witness :
    SalesforceAutoField.init ⟨false, true, true, some "x".data⟩
        = Except.error autoFieldAssertMsg
    ∧ SalesforceAutoField.init ⟨true, true, true, some "x".data⟩
        = Except.ok ⟨true, false, false, Option.none⟩ :=
  ⟨C6_auto_field_ctor.1 ⟨false, true, true, some "x".data⟩ rfl,
   C6_auto_field_ctor.2 ⟨true, true, true, some "x".data⟩ rfl⟩

/-- C7: a model has at most one auto field: attaching to a class that
already has one fails with the assertion error, and a successful attachment
marks the class as having an auto field (so a second attachment fails). -/
theorem C7_single_auto_field :
    (∀ (field : SalesforceAutoFieldState) (meta : ModelMeta),
        meta.has_auto_field = true →
        SalesforceAutoField.contribute_to_class field meta
          = Except.error autoFieldDupMsg)
    ∧ (∀ (field field2 : SalesforceAutoFieldState) (meta meta2 : ModelMeta),
        SalesforceAutoField.contribute_to_class field meta = Except.ok meta2 →
        meta2.has_auto_field = true
        ∧ SalesforceAutoField.contribute_to_class field2 meta2
            = Except.error autoFieldDupMsg) := by
  constructor
  · intro field meta h; simp [SalesforceAutoField.contribute_to_class, h]
  · intro field field2 meta meta2 h
    by_cases hm : meta.has_auto_field
    · simp [SalesforceAutoField.contribute_to_class, hm] at h
    · simp [SalesforceAutoField.contribute_to_class, hm] at h
      have h2 : meta2.has_auto_field = true := by
        rw [← h]
      exact ⟨h2, by simp [SalesforceAutoField.contribute_to_class, h2]⟩

/-- C7 witness: on a fresh model the first attachment succeeds and the
second fails. -/
theorem C7_single_auto_field_witness :
    SalesforceAutoField.contribute_to_class ⟨true, false, false, Option.none⟩
        ⟨true, Option.none⟩ = Except.error autoFieldDupMsg
    ∧ (⟨true, some ⟨true, false, false, Option.none⟩⟩ : ModelMeta).has_auto_field
          = true
      ∧ SalesforceAutoField.contribute_to_class ⟨true, false, false, Option.none⟩
          ⟨true, some ⟨true, false, false, Option.none⟩⟩
          = Except.error autoFieldDupMsg :=
  ⟨C7_single_auto_field.1 ⟨true, false, false, Option.none⟩ ⟨true, Option.none⟩ rfl,
   C7_single_auto_field.2 ⟨true, false, false, Option.none⟩
     ⟨true, false, false, Option.none⟩ ⟨false, Option.none⟩
     ⟨true, some ⟨true, false, false, Option.none⟩⟩ rfl⟩

/-- C8: constructing a relation field never fails: the requested policy is
kept; policies other than PROTECT and DO_NOTHING make exactly one warning,
whose text contains the policy name and the related model, and PROTECT and
DO_NOTHING make none. -/
theorem C8_fk_on_delete_warning (related : List Char) (od : OnDelete) :
    (ForeignKey.init related (some od)).2 = od
    ∧ ((od = OnDelete.PROTECT ∨ od = OnDelete.DO_NOTHING) →
        (ForeignKey.init related (some od)).1 = [])
    ∧ ((od ≠ OnDelete.PROTECT ∧ od ≠ OnDelete.DO_NOTHING) →
        (ForeignKey.init related (some od)).1
            = [fkWarningText (OnDelete.name od) related]
        ∧ ∃ a b, fkWarningText (OnDelete.name od) related
            = a ++ OnDelete.name od ++ b ++ related) := by
  refine ⟨rfl, ?_, ?_⟩
  · rintro (rfl | rfl) <;> rfl
  · intro h
    cases od
    case PROTECT => exact absurd rfl h.1
    case DO_NOTHING => exact absurd rfl h.2
    all_goals
      refine ⟨by simp [ForeignKey.init, OnDelete.name], ?_⟩
      · exact ⟨"Only foreign keys with on_delete = PROTECT or DO_NOTHING are currently supported, not ".data,
          " related to ".data, by simp [fkWarningText, List.append_assoc]⟩

/-- C8 witness: PROTECT warns nothing, SET_NULL warns exactly once. -/
theorem C8_fk_on_delete_warning_witness :
    (ForeignKey.init "Account".data (some OnDelete.PROTECT)).1 = []
    ∧ (ForeignKey.init "Account".data (some OnDelete.SET_NULL)).1
        = [fkWarningText (OnDelete.name OnDelete.SET_NULL) "Account".data] :=
  ⟨(C8_fk_on_delete_warning "Account".data OnDelete.PROTECT).2.1 (Or.inl rfl),
   ((C8_fk_on_delete_warning "Account".data OnDelete.SET_NULL).2.2
      (by decide)).1⟩

/-- C9: `to_python` passes `None` and strings through unchanged and turns
any other value into its text form, and `validate` never reports an error. -/
theorem C9_to_python_and_validate :
    SalesforceAutoField.to_python PyValue.none = PyValue.none
    ∧ (∀ s, SalesforceAutoField.to_python (PyValue.str s) = PyValue.str s)
    ∧ (∀ n, SalesforceAutoField.to_python (PyValue.int n)
        = PyValue.str ((toString n).data))
    ∧ (∀ b, SalesforceAutoField.to_python (PyValue.bool b)
        = PyValue.str (smart_text (PyValue.bool b)))
    ∧ (∀ v mi, SalesforceAutoField.validate v mi = Option.none) :=
  ⟨rfl, fun _ => rfl, fun _ => rfl, fun _ => rfl, fun _ _ => rfl⟩

/-- C10: a relation field built without an explicit `on_delete` defaults to
CASCADE, which is unsupported, so the warning fires; in general every
construction that does not pass PROTECT or DO_NOTHING explicitly emits
exactly one warning. -/
theorem C10_default_cascade_warns :
    (∀ related, (ForeignKey.init related Option.none).2 = OnDelete.CASCADE)
    ∧ (∀ related, (ForeignKey.init related Option.none).1
        = [fkWarningText (OnDelete.name OnDelete.CASCADE) related])
    ∧ (∀ (related : List Char) (od_opt : Option OnDelete),
        (∀ od, od_opt = some od →
            od ≠ OnDelete.PROTECT ∧ od ≠ OnDelete.DO_NOTHING) →
        (ForeignKey.init related od_opt).1.length = 1) := by
  refine ⟨fun related => rfl, fun related => rfl, ?_⟩
  intro related od_opt h
  cases od_opt with
  | none => rfl
  | some od =>
    have hod := h od rfl
    cases od
    case PROTECT => exact absurd rfl hod.1
    case DO_NOTHING => exact absurd rfl hod.2
    all_goals simp [ForeignKey.init, OnDelete.name]

/-- C10 witness: omitting `on_delete` yields CASCADE and one warning. -/
theorem C10_default_cascade_warns_witness :
    (ForeignKey.init "Account".data Option.none).2 = OnDelete.CASCADE
    ∧ (ForeignKey.init "Account".data Option.none).1.length = 1 :=
  ⟨C10_default_cascade_warns.1 "Account".data,
   C10_default_cascade_warns.2.2 "Account".data Option.none
     (fun od h => absurd h (by simp))⟩

end Salesforce
